import Mathlib

/-! AppMgr: `HMIHandler` and `Application`

A shallow embedding of `src/components/AppMgr/src/HMIHandler.cpp` and
`src/components/AppMgr/src/Application.cpp`.

* A C++ pointer is a natural number, `0` being the null pointer.
* A `void` member function that logs or calls into the JSON RPC2 handler is a
  function from the object to the new object and the list of effects it
  produced, in program order.
* `int` is `Int`, `unsigned int` is `Nat`; the embedded code stores and compares
  these values and never does arithmetic on them.
-/

namespace NsAppManager

/-! ## Effects: the logger and the downstream JSON RPC2 handler -/

/-- Severity of a record handed to the log4cplus logger. -/
inductive LogLevel where
  | info
  | error
  deriving DecidableEq

/-- One operand streamed into a log record with the stream insertion operator. -/
inductive LogArg where
  | str (text : String)
  | int (value : Int)
  deriving DecidableEq

/-- An RPC2 message. `HMIHandler` reads nothing of it but `getMethod()`; the rest
of the message is carried along untouched. -/
structure RPC2Command where
  method : Int
  body : String
  deriving DecidableEq

/-- Method id of a message, `RPC2Command::getMethod()`. -/
def RPC2Command.getMethod (c : RPC2Command) : Int := c.method

/-- What a member function does to the world outside the object: a log record, or
a call of one of the three send operations of the `JSONRPC2Handler` that the
pointer `handler` points to. -/
inductive Effect where
  | log (level : LogLevel) (parts : List LogArg)
  | sendNotification (handler : Nat) (command : RPC2Command)
  | sendResponse (handler : Nat) (command : RPC2Command)
  | sendRequest (handler : Nat) (command : RPC2Command)
  deriving DecidableEq

/-- `LOG4CPLUS_INFO_EXT(mLogger, ...)`. -/
def logInfo (parts : List LogArg) : Effect := Effect.log LogLevel.info parts

/-- `LOG4CPLUS_ERROR_EXT(mLogger, ...)`. -/
def logError (parts : List LogArg) : Effect := Effect.log LogLevel.error parts

/-- Whether an effect is a call into a JSON RPC2 handler (a forwarded message). -/
def Effect.isForward : Effect → Bool
  | Effect.log _ _ => false
  | Effect.sendNotification _ _ => true
  | Effect.sendResponse _ _ => true
  | Effect.sendRequest _ _ => true

/-- Whether an effect is a record of level error. -/
def Effect.isErrorReport : Effect → Bool
  | Effect.log LogLevel.error _ => true
  | _ => false

/-- The calls into a JSON RPC2 handler among a list of effects, in order. -/
def forwarded (effects : List Effect) : List Effect := effects.filter Effect.isForward

/-- The error records among a list of effects, in order. -/
def errorReports (effects : List Effect) : List Effect := effects.filter Effect.isErrorReport

/-! ## HMIHandler -/

/-- Data members of `HMIHandler`: the pointer to the JSON RPC2 handler (`0` when
none is set) and the ready flag. -/
structure HMIHandler where
  mJSONRPC2Handler : Nat
  m_bHMIReady : Bool
  deriving DecidableEq

namespace HMIHandler

/-- `HMIHandler::HMIHandler()`: null handler, not ready, one info record. -/
def construct : HMIHandler × List Effect :=
  (HMIHandler.mk 0 false, [logInfo [LogArg.str " HMIHandler constructed!"]])

/-- The object the default constructor leaves behind. -/
def initial : HMIHandler := construct.1

/-- `HMIHandler::HMIHandler(const HMIHandler &)`: null handler, not ready,
whatever the source object holds. -/
def copyConstruct (_source : HMIHandler) : HMIHandler := HMIHandler.mk 0 false

/-- `HMIHandler::setReadyState(bool ready)`. -/
def setReadyState (self : HMIHandler) (ready : Bool) : HMIHandler × List Effect :=
  if self.mJSONRPC2Handler ≠ 0 then
    (HMIHandler.mk self.mJSONRPC2Handler ready, [])
  else
    (self, [logError [LogArg.str " HMIHandler is about to set ready, but is null!"]])

/-- `HMIHandler::sendNotification(const RPC2Notification *command)`. -/
def sendNotification (self : HMIHandler) (command : RPC2Command) : HMIHandler × List Effect :=
  if self.m_bHMIReady then
    if self.mJSONRPC2Handler ≠ 0 then
      (self, [logInfo [LogArg.str " Sending a notification ", LogArg.int command.getMethod],
              Effect.sendNotification self.mJSONRPC2Handler command])
    else
      (self, [])
  else
    (self, [logError [LogArg.str " HMIHandler not ready yet!"]])

/-- `HMIHandler::sendResponse(const RPC2Response *command)`. -/
def sendResponse (self : HMIHandler) (command : RPC2Command) : HMIHandler × List Effect :=
  if self.m_bHMIReady then
    if self.mJSONRPC2Handler ≠ 0 then
      (self, [logInfo [LogArg.str " Sending a response ", LogArg.int command.getMethod],
              Effect.sendResponse self.mJSONRPC2Handler command])
    else
      (self, [])
  else
    (self, [logError [LogArg.str " HMIHandler not ready yet!"]])

/-- `HMIHandler::sendRequest(const RPC2Request *command)`. -/
def sendRequest (self : HMIHandler) (command : RPC2Command) : HMIHandler × List Effect :=
  if self.m_bHMIReady then
    if self.mJSONRPC2Handler ≠ 0 then
      (self, [logInfo [LogArg.str " Sending a request ", LogArg.int command.getMethod],
              Effect.sendRequest self.mJSONRPC2Handler command])
    else
      (self, [])
  else
    (self, [logError [LogArg.str " HMIHandler not ready yet!"]])

/-- `HMIHandler::setJsonRPC2Handler(JSONRPC2Handler *handler)`. -/
def setJsonRPC2Handler (self : HMIHandler) (handler : Nat) : HMIHandler × List Effect :=
  if handler = 0 then
    (self, [logError [LogArg.str "A null pointer is being assigned - is this the intent?"]])
  else
    (HMIHandler.mk handler self.m_bHMIReady, [])

/-- `HMIHandler::getJsonRPC2Handler() const`: the object is untouched, the
pointer is returned, and a null pointer is reported. -/
def getJsonRPC2Handler (self : HMIHandler) : Nat × List Effect :=
  if self.mJSONRPC2Handler = 0 then
    (self.mJSONRPC2Handler, [logError [LogArg.str
      "JSON RPC2 handler hasn't yet been assigned, but an attempt to retrieve it has been made! Face a core dump soon...((("]])
  else
    (self.mJSONRPC2Handler, [])

/-- A call of one public member function of `HMIHandler`, with its argument. -/
inductive Op where
  | setJsonRPC2Handler (handler : Nat)
  | setReadyState (ready : Bool)
  | sendNotification (command : RPC2Command)
  | sendResponse (command : RPC2Command)
  | sendRequest (command : RPC2Command)
  | getJsonRPC2Handler
  deriving DecidableEq

/-- Run one call on the object. -/
def step (self : HMIHandler) : Op → HMIHandler × List Effect
  | Op.setJsonRPC2Handler handler => self.setJsonRPC2Handler handler
  | Op.setReadyState ready => self.setReadyState ready
  | Op.sendNotification command => self.sendNotification command
  | Op.sendResponse command => self.sendResponse command
  | Op.sendRequest command => self.sendRequest command
  | Op.getJsonRPC2Handler => (self, self.getJsonRPC2Handler.2)

/-- Run a sequence of calls, first to last, collecting the effects in order. -/
def run (self : HMIHandler) : List Op → HMIHandler × List Effect
  | [] => (self, [])
  | op :: ops =>
    let r := self.step op
    let rest := run r.1 ops
    (rest.1, r.2 ++ rest.2)

end HMIHandler

/-! ## The containers owned by an Application

`CommandMapping`, `MenuMapping` and `MenuItems` are classes of the repository
that `Application.cpp` only calls into. -/

/-- Modelled from the spec: the enumeration `CommandType` of `CommandMapping`
("type: enum UI, VR, ..."), declared in a header that is not part of the
embedded sources. -/
inductive CommandType where
  | UI
  | VR
  deriving DecidableEq

/-- Modelled from the spec: `CommandParams`, the "opaque command parameters
payload" of a command. -/
abbrev CommandParams := String

/-- Modelled from the spec: one entry of `CommandMapping`, with identity
(commandId, type) and value params plus unrespondedCount. -/
structure CommandEntry where
  commandId : Nat
  type : CommandType
  params : CommandParams
  unrespondedCount : Nat
  deriving DecidableEq

/-- Modelled from the spec: class `CommandMapping`, a store of commands "unique
per (commandId, type) pair". A default-constructed mapping has no entry. -/
structure CommandMapping where
  entries : List CommandEntry
  deriving DecidableEq

/-- Modelled from the spec: the default constructor of `CommandMapping`. -/
def CommandMapping.empty : CommandMapping := CommandMapping.mk []

/-- Modelled from the spec: `CommandMapping::addCommand`, which "inserts or
replaces the entry for that pair", the count being "initialized to 0 on
insertion" and kept on replacement. -/
def CommandMapping.addCommand (self : CommandMapping) (commandId : Nat) (type : CommandType)
    (params : CommandParams) : CommandMapping :=
  if self.entries.any (fun e => e.commandId == commandId && e.type == type) then
    CommandMapping.mk (self.entries.map (fun e =>
      if e.commandId == commandId && e.type == type then
        CommandEntry.mk e.commandId e.type params e.unrespondedCount
      else e))
  else
    CommandMapping.mk (self.entries ++ [CommandEntry.mk commandId type params 0])

/-- Modelled from the spec: `CommandMapping::removeCommand`, which "deletes
exactly that pair's entry". -/
def CommandMapping.removeCommand (self : CommandMapping) (commandId : Nat) (type : CommandType) :
    CommandMapping :=
  CommandMapping.mk (self.entries.filter (fun e => !(e.commandId == commandId && e.type == type)))

/-- Modelled from the spec: `CommandMapping::size`, the "total entry count
across all types". -/
def CommandMapping.size (self : CommandMapping) : Nat := self.entries.length

/-- Modelled from the spec: class `MenuMapping`, the association "commandId to
set of menuId", kept as the list of (commandId, menuId) pairs. A
default-constructed mapping has no pair. -/
structure MenuMapping where
  pairs : List (Nat × Nat)
  deriving DecidableEq

/-- Modelled from the spec: the default constructor of `MenuMapping`. -/
def MenuMapping.empty : MenuMapping := MenuMapping.mk []

/-- Modelled from the spec: `MenuMapping::addCommand`, which "adds the
association (idempotent if already present)". -/
def MenuMapping.addCommand (self : MenuMapping) (commandId menuId : Nat) : MenuMapping :=
  if (commandId, menuId) ∈ self.pairs then self
  else MenuMapping.mk (self.pairs ++ [(commandId, menuId)])

/-- Modelled from the spec: `MenuMapping::removeCommand`, which "removes every
association for that commandId". -/
def MenuMapping.removeCommand (self : MenuMapping) (commandId : Nat) : MenuMapping :=
  MenuMapping.mk (self.pairs.filter (fun p => !(p.1 == commandId)))

/-- Modelled from the spec: `MenuMapping::size`, the "number of distinct
commandId entries tracked". -/
def MenuMapping.size (self : MenuMapping) : Nat := (self.pairs.map Prod.fst).dedup.length

/-- Modelled from the spec: one entry of `MenuItems`, a menuId with its name
and optional ordering hint. -/
structure MenuItem where
  menuId : Nat
  name : String
  orderingHint : Option Nat
  deriving DecidableEq

/-- Modelled from the spec: class `MenuItems`, a flat registry with "menuId
(unique key)". A default-constructed registry has no entry. -/
structure MenuItems where
  items : List MenuItem
  deriving DecidableEq

/-- Modelled from the spec: the default constructor of `MenuItems`. -/
def MenuItems.empty : MenuItems := MenuItems.mk []

/-- Modelled from the spec: `MenuItems::addItem`, which "inserts or replaces". -/
def MenuItems.addItem (self : MenuItems) (menuId : Nat) (name : String) (position : Option Nat) :
    MenuItems :=
  if self.items.any (fun i => i.menuId == menuId) then
    MenuItems.mk (self.items.map (fun i =>
      if i.menuId == menuId then MenuItem.mk menuId name position else i))
  else
    MenuItems.mk (self.items ++ [MenuItem.mk menuId name position])

/-- Modelled from the spec: `MenuItems::removeItem`, which "deletes". -/
def MenuItems.removeItem (self : MenuItems) (menuId : Nat) : MenuItems :=
  MenuItems.mk (self.items.filter (fun i => !(i.menuId == menuId)))

/-- Modelled from the spec: `MenuItems::size`. -/
def MenuItems.size (self : MenuItems) : Nat := self.items.length

/-! ## The session-key container

`mSessionKeys` is used through `push_back(value)` and `remove(value)`; of the
standard sequence containers only `std::list` has both members, and the source
comments call it "a list of session keys". -/

/-- The member `std::list<int>::push_back`: the value goes to the end. -/
def stdListPushBack (l : List Int) (value : Int) : List Int := l ++ [value]

/-- The member `std::list<int>::remove(value)`: one pass from begin to end that
erases each element comparing equal to the value. -/
def stdListRemove (value : Int) : List Int → List Int
  | [] => []
  | x :: rest => if x == value then stdListRemove value rest else x :: stdListRemove value rest

/-! ## Application -/

/-- Data members of `Application`. -/
structure Application where
  mNgnMediaScreenAppName : String
  m_bIsMediaApplication : Bool
  mName : String
  mProtocolVersion : Nat
  mAppID : Int
  mVrSynonyms : List String
  mSessionKeys : List Int
  mCommandMapping : CommandMapping
  mMenuMapping : MenuMapping
  mMenus : MenuItems
  deriving DecidableEq

namespace Application

/-- `Application::getNgnMediaScreenAppName`. -/
def getNgnMediaScreenAppName (self : Application) : String := self.mNgnMediaScreenAppName

/-- `Application::getVrSynonyms`. -/
def getVrSynonyms (self : Application) : List String := self.mVrSynonyms

/-- `Application::getIsMediaApplication`. -/
def getIsMediaApplication (self : Application) : Bool := self.m_bIsMediaApplication

/-- `Application::getProtocolVersion`. -/
def getProtocolVersion (self : Application) : Nat := self.mProtocolVersion

/-- `Application::getName`. -/
def getName (self : Application) : String := self.mName

/-- `Application::getAppID`. -/
def getAppID (self : Application) : Int := self.mAppID

/-- `Application::addSessionKey`. -/
def addSessionKey (self : Application) (sessionKey : Int) : Application :=
  Application.mk self.mNgnMediaScreenAppName self.m_bIsMediaApplication self.mName
    self.mProtocolVersion self.mAppID self.mVrSynonyms
    (stdListPushBack self.mSessionKeys sessionKey)
    self.mCommandMapping self.mMenuMapping self.mMenus

/-- `Application::removeSessionKey`. -/
def removeSessionKey (self : Application) (sessionKey : Int) : Application :=
  Application.mk self.mNgnMediaScreenAppName self.m_bIsMediaApplication self.mName
    self.mProtocolVersion self.mAppID self.mVrSynonyms
    (stdListRemove sessionKey self.mSessionKeys)
    self.mCommandMapping self.mMenuMapping self.mMenus

/-- `Application::Application(const std::string& name, int appId, unsigned int
protocolVersion)`: the members of the initializer list take the given values,
the others are default-constructed, then the body adds the session key and
writes one info record. -/
def construct (name : String) (appId : Int) (protocolVersion : Nat) : Application × List Effect :=
  let members := Application.mk "" false name protocolVersion appId [] []
    CommandMapping.empty MenuMapping.empty MenuItems.empty
  (members.addSessionKey appId,
   [logInfo [LogArg.str " Created an application ", LogArg.str name,
             LogArg.str " application id ", LogArg.int appId]])

/-- `Application::Application(const Application& app)`: five members come from
the getters of the source object, the others are default-constructed, then the
body adds the session key and assigns the synonyms. -/
def copy (app : Application) : Application :=
  let members := Application.mk app.getNgnMediaScreenAppName app.getIsMediaApplication
    app.getName app.getProtocolVersion app.getAppID [] []
    CommandMapping.empty MenuMapping.empty MenuItems.empty
  let withKey := members.addSessionKey app.getAppID
  Application.mk withKey.mNgnMediaScreenAppName withKey.m_bIsMediaApplication withKey.mName
    withKey.mProtocolVersion withKey.mAppID app.getVrSynonyms withKey.mSessionKeys
    withKey.mCommandMapping withKey.mMenuMapping withKey.mMenus

/-- `Application::~Application()`: one info record. -/
def destruct (self : Application) : List Effect :=
  [logInfo [LogArg.str " Deleted an application ", LogArg.str self.mName,
            LogArg.str " application id ", LogArg.int self.mAppID]]

/-- `Application::operator==`. -/
def operatorEq (self item : Application) : Bool := self.getAppID == item.getAppID

/-- `Application::setNgnMediaScreenAppName`. -/
def setNgnMediaScreenAppName (self : Application) (value : String) : Application :=
  Application.mk value self.m_bIsMediaApplication self.mName self.mProtocolVersion self.mAppID
    self.mVrSynonyms self.mSessionKeys self.mCommandMapping self.mMenuMapping self.mMenus

/-- `Application::setVrSynonyms`. -/
def setVrSynonyms (self : Application) (value : List String) : Application :=
  Application.mk self.mNgnMediaScreenAppName self.m_bIsMediaApplication self.mName
    self.mProtocolVersion self.mAppID value self.mSessionKeys
    self.mCommandMapping self.mMenuMapping self.mMenus

/-- `Application::setIsMediaApplication`. -/
def setIsMediaApplication (self : Application) (value : Bool) : Application :=
  Application.mk self.mNgnMediaScreenAppName value self.mName self.mProtocolVersion self.mAppID
    self.mVrSynonyms self.mSessionKeys self.mCommandMapping self.mMenuMapping self.mMenus

/-- `Application::addMenuCommand`. -/
def addMenuCommand (self : Application) (commandId menuId : Nat) : Application :=
  Application.mk self.mNgnMediaScreenAppName self.m_bIsMediaApplication self.mName
    self.mProtocolVersion self.mAppID self.mVrSynonyms self.mSessionKeys
    self.mCommandMapping (self.mMenuMapping.addCommand commandId menuId) self.mMenus

/-- `Application::removeMenuCommand`. -/
def removeMenuCommand (self : Application) (commandId : Nat) : Application :=
  Application.mk self.mNgnMediaScreenAppName self.m_bIsMediaApplication self.mName
    self.mProtocolVersion self.mAppID self.mVrSynonyms self.mSessionKeys
    self.mCommandMapping (self.mMenuMapping.removeCommand commandId) self.mMenus

/-- `Application::addMenu`; the pointer `position` is null or points to a value. -/
def addMenu (self : Application) (menuId : Nat) (menuName : String) (position : Option Nat) :
    Application :=
  Application.mk self.mNgnMediaScreenAppName self.m_bIsMediaApplication self.mName
    self.mProtocolVersion self.mAppID self.mVrSynonyms self.mSessionKeys
    self.mCommandMapping self.mMenuMapping (self.mMenus.addItem menuId menuName position)

/-- `Application::removeMenu`. -/
def removeMenu (self : Application) (menuId : Nat) : Application :=
  Application.mk self.mNgnMediaScreenAppName self.m_bIsMediaApplication self.mName
    self.mProtocolVersion self.mAppID self.mVrSynonyms self.mSessionKeys
    self.mCommandMapping self.mMenuMapping (self.mMenus.removeItem menuId)

/-- `Application::getMenusCount`. -/
def getMenusCount (self : Application) : Nat := self.mMenus.size

/-- `Application::getMenuCommandsCount`. -/
def getMenuCommandsCount (self : Application) : Nat := self.mMenuMapping.size

/-- `Application::addCommand`. -/
def addCommand (self : Application) (commandId : Nat) (type : CommandType)
    (params : CommandParams) : Application :=
  Application.mk self.mNgnMediaScreenAppName self.m_bIsMediaApplication self.mName
    self.mProtocolVersion self.mAppID self.mVrSynonyms self.mSessionKeys
    (self.mCommandMapping.addCommand commandId type params) self.mMenuMapping self.mMenus

/-- `Application::removeCommand`. -/
def removeCommand (self : Application) (commandId : Nat) (type : CommandType) : Application :=
  Application.mk self.mNgnMediaScreenAppName self.m_bIsMediaApplication self.mName
    self.mProtocolVersion self.mAppID self.mVrSynonyms self.mSessionKeys
    (self.mCommandMapping.removeCommand commandId type) self.mMenuMapping self.mMenus

/-- `Application::getCommandsCount`. -/
def getCommandsCount (self : Application) : Nat := self.mCommandMapping.size

end Application

/-! ## Concrete objects used as test inputs -/

/-- An application with session keys 1, 2, 1: constructed with id 1, then two
calls of addSessionKey. -/
def appWithRepeatedKey : Application :=
  (((Application.construct "navi" 1 2).1).addSessionKey 2).addSessionKey 1

/-- An application that registered one command, one menu and one menu command. -/
def appWithRegistrations : Application :=
  ((((Application.construct "navi" 7 2).1).addCommand 5 CommandType.UI "play").addMenu
    1 "Settings" none).addMenuCommand 5 1

/-- A message used as test input. -/
def sampleCommand : RPC2Command := RPC2Command.mk 12 "OnReady"

/-- A sequence of public calls without setReadyState(false): a
setReadyState(true), the three sends, a change of handler, a rejected null
handler and a query. -/
def sampleCalls : List HMIHandler.Op :=
  [HMIHandler.Op.setReadyState true, HMIHandler.Op.sendRequest sampleCommand,
   HMIHandler.Op.sendResponse sampleCommand, HMIHandler.Op.sendNotification sampleCommand,
   HMIHandler.Op.setJsonRPC2Handler 2, HMIHandler.Op.setJsonRPC2Handler 0,
   HMIHandler.Op.getJsonRPC2Handler]

/-- The handler object after the calls `ops`, made on a freshly constructed
object. -/
def reached (ops : List HMIHandler.Op) : HMIHandler := (HMIHandler.initial.run ops).1

/-- The handler object after `setJsonRPC2Handler(c)` and `setReadyState(true)`,
made in this order on a freshly constructed object. -/
def attachedAndReady (c : Nat) : HMIHandler :=
  reached [HMIHandler.Op.setJsonRPC2Handler c, HMIHandler.Op.setReadyState true]

/-- The record every send writes when the ready flag is off. -/
def notReadyReport : Effect := logError [LogArg.str " HMIHandler not ready yet!"]

/-- The words of the specification for removal of a session key, "first-match
delete, no-op if absent": the first element equal to the key goes, every other
element stays. -/
def specRemoveFirstMatch (key : Int) : List Int → List Int
  | [] => []
  | x :: rest => if x == key then rest else x :: specRemoveFirstMatch key rest

/-! ## Auxiliary facts -/

namespace HMIHandler

theorem step_keeps_handler_of_ready (s : HMIHandler) (op : Op)
    (h : s.m_bHMIReady = true → s.mJSONRPC2Handler ≠ 0) :
    (s.step op).1.m_bHMIReady = true → (s.step op).1.mJSONRPC2Handler ≠ 0 := by
  cases op <;>
    simp only [step, setJsonRPC2Handler, setReadyState, sendNotification, sendResponse,
      sendRequest] <;>
    (try split_ifs) <;> simp_all

theorem run_keeps_handler_of_ready (ops : List Op) (s : HMIHandler)
    (h : s.m_bHMIReady = true → s.mJSONRPC2Handler ≠ 0) :
    (s.run ops).1.m_bHMIReady = true → (s.run ops).1.mJSONRPC2Handler ≠ 0 := by
  induction ops generalizing s with
  | nil => simpa [run] using h
  | cons op ops ih =>
    simp only [run]
    exact ih (s.step op).1 (step_keeps_handler_of_ready s op h)

theorem step_keeps_ready (s : HMIHandler) (op : Op) (h : s.m_bHMIReady = true)
    (hop : op ≠ Op.setReadyState false) : (s.step op).1.m_bHMIReady = true := by
  cases op with
  | setReadyState ready =>
    cases ready with
    | false => exact absurd rfl hop
    | true => simp only [step, setReadyState]; split_ifs <;> simp_all
  | _ =>
    simp only [step, setJsonRPC2Handler, sendNotification, sendResponse, sendRequest]
    (try split_ifs) <;> simp_all

end HMIHandler

theorem reached_handler_of_ready (ops : List HMIHandler.Op)
    (h : (reached ops).m_bHMIReady = true) : (reached ops).mJSONRPC2Handler ≠ 0 :=
  HMIHandler.run_keeps_handler_of_ready ops HMIHandler.initial (by decide) h

/-- The copy constructor names none of the three owned containers, so the copy
holds default-constructed ones. -/
theorem copy_containers_default (src : Application) :
    (Application.copy src).mCommandMapping = CommandMapping.empty ∧
      (Application.copy src).mMenuMapping = MenuMapping.empty ∧
      (Application.copy src).mMenus = MenuItems.empty := by
  simp [Application.copy, Application.addSessionKey]

theorem stdListRemove_eq_filter (key : Int) (l : List Int) :
    stdListRemove key l = l.filter (fun x => x != key) := by
  induction l with
  | nil => rfl
  | cons x rest ih =>
    by_cases hx : x = key
    · simp [stdListRemove, hx, ih]
    · simp [stdListRemove, hx, ih]

/-! ## HMIHandler: the claims -/

/-- C1: in every state of the handler and for every message, each of
sendRequest, sendResponse and sendNotification calls into the JSON RPC2 handler
exactly when the ready flag is on and a handler is set, and then only with the
same kind of call, the stored pointer and the given message; in every other
state the list of calls into any handler is empty. -/
theorem send_forwards_only_when_ready_and_attached (s : HMIHandler) (m : RPC2Command) :
    forwarded (s.sendRequest m).2 =
        (if s.m_bHMIReady = true ∧ s.mJSONRPC2Handler ≠ 0 then
          [Effect.sendRequest s.mJSONRPC2Handler m] else []) ∧
      forwarded (s.sendResponse m).2 =
        (if s.m_bHMIReady = true ∧ s.mJSONRPC2Handler ≠ 0 then
          [Effect.sendResponse s.mJSONRPC2Handler m] else []) ∧
      forwarded (s.sendNotification m).2 =
        (if s.m_bHMIReady = true ∧ s.mJSONRPC2Handler ≠ 0 then
          [Effect.sendNotification s.mJSONRPC2Handler m] else []) := by
  obtain ⟨handler, ready⟩ := s
  by_cases hh : handler = 0 <;> cases ready <;>
    simp [forwarded, HMIHandler.sendRequest, HMIHandler.sendResponse,
      HMIHandler.sendNotification, logInfo, logError, Effect.isForward, hh]

/-- C2: on a freshly constructed handler, after setJsonRPC2Handler(c) with a
non-null c and setReadyState(true), each of sendNotification, sendRequest and
sendResponse makes exactly one call into a handler: the call of its own kind, on
c, with the message it was given; and the send leaves the object as it was. -/
theorem send_after_attach_and_ready (c : Nat) (hc : c ≠ 0) (n : RPC2Command) :
    attachedAndReady c = HMIHandler.mk c true ∧
      forwarded ((attachedAndReady c).sendNotification n).2 = [Effect.sendNotification c n] ∧
      ((attachedAndReady c).sendNotification n).1 = attachedAndReady c ∧
      forwarded ((attachedAndReady c).sendRequest n).2 = [Effect.sendRequest c n] ∧
      ((attachedAndReady c).sendRequest n).1 = attachedAndReady c ∧
      forwarded ((attachedAndReady c).sendResponse n).2 = [Effect.sendResponse c n] ∧
      ((attachedAndReady c).sendResponse n).1 = attachedAndReady c := by
  have hs : attachedAndReady c = HMIHandler.mk c true := by
    simp [attachedAndReady, reached, HMIHandler.run, HMIHandler.step, HMIHandler.initial,
      HMIHandler.construct, HMIHandler.setJsonRPC2Handler, HMIHandler.setReadyState, hc]
  rw [hs]
  simp [forwarded, HMIHandler.sendRequest, HMIHandler.sendResponse,
    HMIHandler.sendNotification, logInfo, Effect.isForward, hc]

/-- Witness of C2 with the handler at address 1 and the sample message. -/
theorem send_after_attach_and_ready_witness :
    (1 : Nat) ≠ 0 ∧
      attachedAndReady 1 = HMIHandler.mk 1 true ∧
      forwarded ((attachedAndReady 1).sendNotification sampleCommand).2 =
        [Effect.sendNotification 1 sampleCommand] ∧
      ((attachedAndReady 1).sendNotification sampleCommand).1 = attachedAndReady 1 ∧
      forwarded ((attachedAndReady 1).sendRequest sampleCommand).2 =
        [Effect.sendRequest 1 sampleCommand] ∧
      ((attachedAndReady 1).sendRequest sampleCommand).1 = attachedAndReady 1 ∧
      forwarded ((attachedAndReady 1).sendResponse sampleCommand).2 =
        [Effect.sendResponse 1 sampleCommand] ∧
      ((attachedAndReady 1).sendResponse sampleCommand).1 = attachedAndReady 1 :=
  ⟨by decide, send_after_attach_and_ready 1 (by decide) sampleCommand⟩

/-- C3 as stated fails: the object reached by setJsonRPC2Handler(1) and
setReadyState(true) has the ready flag on, and the single call
setReadyState(false) on it turns the flag off; so it is not true that every
sequence of public calls keeps a ready handler ready. -/
theorem ready_is_not_terminal :
    (attachedAndReady 1).m_bHMIReady = true ∧
      ((attachedAndReady 1).run [HMIHandler.Op.setReadyState false]).1.m_bHMIReady = false ∧
      ¬ (∀ (s : HMIHandler) (ops : List HMIHandler.Op),
          s.m_bHMIReady = true → (s.run ops).1.m_bHMIReady = true) :=
  ⟨by decide, by decide,
    fun h => absurd (h (attachedAndReady 1) [HMIHandler.Op.setReadyState false] (by decide))
      (by decide)⟩

/-- C3, amended: from a state with the ready flag on, every sequence of public
calls that has no setReadyState(false) in it leaves the flag on; and the call
setReadyState(false) itself turns the flag off exactly when a handler is set,
the handler staying as it was. -/
theorem ready_kept_without_setReadyState_false (s : HMIHandler) (ops : List HMIHandler.Op)
    (hready : s.m_bHMIReady = true) (hops : HMIHandler.Op.setReadyState false ∉ ops) :
    (s.run ops).1.m_bHMIReady = true ∧
      ((s.setReadyState false).1.m_bHMIReady = false ↔ s.mJSONRPC2Handler ≠ 0) ∧
      (s.setReadyState false).1.mJSONRPC2Handler = s.mJSONRPC2Handler := by
  refine ⟨?_, ?_, ?_⟩
  rotate_left
  · by_cases hh : s.mJSONRPC2Handler = 0 <;> simp [HMIHandler.setReadyState, hh, hready]
  · by_cases hh : s.mJSONRPC2Handler = 0 <;> simp [HMIHandler.setReadyState, hh]
  induction ops generalizing s with
  | nil => simpa [HMIHandler.run] using hready
  | cons op ops ih =>
    simp only [HMIHandler.run]
    have hne : op ≠ HMIHandler.Op.setReadyState false := fun e => hops (e ▸ List.mem_cons_self _ _)
    exact ih (s.step op).1 (HMIHandler.step_keeps_ready s op hready hne)
      (fun hmem => hops (List.mem_cons_of_mem _ hmem))

/-- Witness of the amended C3: a ready handler at address 1 goes through a
setReadyState(true), the three sends, a change of handler, a rejected null
handler and a query, and is still ready. -/
theorem ready_kept_without_setReadyState_false_witness :
    (HMIHandler.mk 1 true).m_bHMIReady = true ∧
      HMIHandler.Op.setReadyState false ∉ sampleCalls ∧
      ((HMIHandler.mk 1 true).run sampleCalls).1.m_bHMIReady = true ∧
      (((HMIHandler.mk 1 true).setReadyState false).1.m_bHMIReady = false ↔ (1 : Nat) ≠ 0) ∧
      ((HMIHandler.mk 1 true).setReadyState false).1.mJSONRPC2Handler = 1 :=
  ⟨rfl, by decide,
    ready_kept_without_setReadyState_false (HMIHandler.mk 1 true) sampleCalls rfl (by decide)⟩

/-- C6: in a state with no handler set, setReadyState(b) leaves the whole
object as it was and reports an error, for either b; a state reached from the
constructor with no handler set has the ready flag off, so setReadyState(true)
there leaves the flag off and the handler null; and in any state whatever,
setReadyState changes the ready flag only when a handler is set. -/
theorem setReadyState_without_handler (s : HMIHandler) (b : Bool)
    (hnone : s.mJSONRPC2Handler = 0) :
    (s.setReadyState b).1 = s ∧
      errorReports (s.setReadyState b).2 =
        [logError [LogArg.str " HMIHandler is about to set ready, but is null!"]] ∧
      (s.m_bHMIReady = false →
        (s.setReadyState true).1.m_bHMIReady = false ∧
          (s.setReadyState true).1.mJSONRPC2Handler = 0) ∧
      (∀ ops : List HMIHandler.Op, s = reached ops →
        (s.setReadyState true).1.m_bHMIReady = false ∧
          (s.setReadyState true).1.mJSONRPC2Handler = 0) ∧
      (∀ (t : HMIHandler) (r : Bool),
        (t.setReadyState r).1.m_bHMIReady ≠ t.m_bHMIReady → t.mJSONRPC2Handler ≠ 0) := by
  have hsame : ∀ r : Bool, (s.setReadyState r).1 = s := by
    intro r; simp [HMIHandler.setReadyState, hnone]
  refine ⟨hsame b, ?_, ?_, ?_, ?_⟩
  · simp [HMIHandler.setReadyState, hnone, errorReports, logError, Effect.isErrorReport]
  · intro hoff
    rw [hsame true]
    exact ⟨hoff, hnone⟩
  · intro ops hs
    rw [hsame true]
    refine ⟨?_, hnone⟩
    cases hr : s.m_bHMIReady with
    | false => rfl
    | true =>
      subst hs
      exact absurd hnone (reached_handler_of_ready ops hr)
  · intro t r hchange hnull
    apply hchange
    simp [HMIHandler.setReadyState, hnull]

/-- Witness of C6 on the freshly constructed handler. -/
theorem setReadyState_without_handler_witness :
    HMIHandler.initial.mJSONRPC2Handler = 0 ∧
      (HMIHandler.initial.setReadyState true).1 = HMIHandler.initial ∧
      (HMIHandler.initial.setReadyState true).1.m_bHMIReady = false ∧
      (HMIHandler.initial.setReadyState true).1.mJSONRPC2Handler = 0 :=
  ⟨rfl, (setReadyState_without_handler HMIHandler.initial true rfl).1,
    (setReadyState_without_handler HMIHandler.initial true rfl).2.2.2.1 [] rfl⟩

/-- C9: in every state, setJsonRPC2Handler with the null pointer leaves the
handler and the ready flag as they were and reports an error, so it never
clears a handler already set; setJsonRPC2Handler(c) with a non-null c stores c
and leaves the ready flag as it was. -/
theorem setJsonRPC2Handler_frame (s : HMIHandler) (c : Nat) (hc : c ≠ 0) :
    (s.setJsonRPC2Handler 0).1 = s ∧
      errorReports (s.setJsonRPC2Handler 0).2 =
        [logError [LogArg.str "A null pointer is being assigned - is this the intent?"]] ∧
      (s.setJsonRPC2Handler c).1.mJSONRPC2Handler = c ∧
      (s.setJsonRPC2Handler c).1.m_bHMIReady = s.m_bHMIReady ∧
      (s.setJsonRPC2Handler c).2 = [] := by
  simp [HMIHandler.setJsonRPC2Handler, hc, errorReports, logError, Effect.isErrorReport]

/-- Witness of C9: a ready handler at address 4 is offered the null pointer and
then the handler at address 9. -/
theorem setJsonRPC2Handler_frame_witness :
    (9 : Nat) ≠ 0 ∧
      ((HMIHandler.mk 4 true).setJsonRPC2Handler 0).1 = HMIHandler.mk 4 true ∧
      errorReports ((HMIHandler.mk 4 true).setJsonRPC2Handler 0).2 =
        [logError [LogArg.str "A null pointer is being assigned - is this the intent?"]] ∧
      ((HMIHandler.mk 4 true).setJsonRPC2Handler 9).1.mJSONRPC2Handler = 9 ∧
      ((HMIHandler.mk 4 true).setJsonRPC2Handler 9).1.m_bHMIReady = true ∧
      ((HMIHandler.mk 4 true).setJsonRPC2Handler 9).2 = [] :=
  ⟨by decide, setJsonRPC2Handler_frame (HMIHandler.mk 4 true) 9 (by decide)⟩

/-- C10: in every state reached from the constructor by a sequence of public
calls, each of sendRequest, sendResponse and sendNotification either makes its
one call into the handler and writes no error record, or makes no call and
writes the error record "HMIHandler not ready yet!"; and on the freshly
constructed object each of the three sends makes no call and writes that
record. -/
theorem dropped_send_is_reported (ops : List HMIHandler.Op) (m : RPC2Command) :
    ((forwarded ((reached ops).sendRequest m).2 =
          [Effect.sendRequest (reached ops).mJSONRPC2Handler m] ∧
        errorReports ((reached ops).sendRequest m).2 = []) ∨
      (forwarded ((reached ops).sendRequest m).2 = [] ∧
        errorReports ((reached ops).sendRequest m).2 = [notReadyReport])) ∧
    ((forwarded ((reached ops).sendResponse m).2 =
          [Effect.sendResponse (reached ops).mJSONRPC2Handler m] ∧
        errorReports ((reached ops).sendResponse m).2 = []) ∨
      (forwarded ((reached ops).sendResponse m).2 = [] ∧
        errorReports ((reached ops).sendResponse m).2 = [notReadyReport])) ∧
    ((forwarded ((reached ops).sendNotification m).2 =
          [Effect.sendNotification (reached ops).mJSONRPC2Handler m] ∧
        errorReports ((reached ops).sendNotification m).2 = []) ∨
      (forwarded ((reached ops).sendNotification m).2 = [] ∧
        errorReports ((reached ops).sendNotification m).2 = [notReadyReport])) ∧
    (forwarded (HMIHandler.initial.sendRequest m).2 = [] ∧
      errorReports (HMIHandler.initial.sendRequest m).2 = [notReadyReport]) ∧
    (forwarded (HMIHandler.initial.sendResponse m).2 = [] ∧
      errorReports (HMIHandler.initial.sendResponse m).2 = [notReadyReport]) ∧
    (forwarded (HMIHandler.initial.sendNotification m).2 = [] ∧
      errorReports (HMIHandler.initial.sendNotification m).2 = [notReadyReport]) := by
  have hinv := reached_handler_of_ready ops
  generalize reached ops = s at hinv
  obtain ⟨handler, ready⟩ := s
  cases ready with
  | false =>
    simp [forwarded, errorReports, notReadyReport, HMIHandler.sendRequest,
      HMIHandler.sendResponse, HMIHandler.sendNotification, HMIHandler.initial,
      HMIHandler.construct, logError, Effect.isForward, Effect.isErrorReport]
  | true =>
    have hh : handler ≠ 0 := hinv rfl
    simp [forwarded, errorReports, notReadyReport, HMIHandler.sendRequest,
      HMIHandler.sendResponse, HMIHandler.sendNotification, HMIHandler.initial,
      HMIHandler.construct, logInfo, logError, Effect.isForward, Effect.isErrorReport, hh]

/-! ## Application: the claims -/

/-- C4 as stated fails: on the application with session keys 1, 2, 1,
removeSessionKey(1) leaves the keys 2, while deleting only the first element
equal to 1 would leave 2, 1. -/
theorem removeSessionKey_drops_later_duplicate :
    appWithRepeatedKey.mSessionKeys = [1, 2, 1] ∧
      (appWithRepeatedKey.removeSessionKey 1).mSessionKeys = [2] ∧
      specRemoveFirstMatch 1 appWithRepeatedKey.mSessionKeys = [2, 1] ∧
      (appWithRepeatedKey.removeSessionKey 1).mSessionKeys ≠
        specRemoveFirstMatch 1 appWithRepeatedKey.mSessionKeys := by
  decide

/-- C4, amended: for every session-key list and every key k,
removeSessionKey(k) deletes every element equal to k: the keys left are the
elements different from k, in their original order, so k is no longer among
them and the result is a sublist of the original; the list is unchanged exactly
when k does not occur in it, and no other member of the application changes. -/
theorem removeSessionKey_removes_every_match (a : Application) (k : Int) :
    (a.removeSessionKey k).mSessionKeys = a.mSessionKeys.filter (fun x => x != k) ∧
      k ∉ (a.removeSessionKey k).mSessionKeys ∧
      List.Sublist (a.removeSessionKey k).mSessionKeys a.mSessionKeys ∧
      ((a.removeSessionKey k).mSessionKeys = a.mSessionKeys ↔ k ∉ a.mSessionKeys) ∧
      a.removeSessionKey k =
        Application.mk a.mNgnMediaScreenAppName a.m_bIsMediaApplication a.mName
          a.mProtocolVersion a.mAppID a.mVrSynonyms (a.mSessionKeys.filter (fun x => x != k))
          a.mCommandMapping a.mMenuMapping a.mMenus := by
  have hf : (a.removeSessionKey k).mSessionKeys = a.mSessionKeys.filter (fun x => x != k) := by
    simp [Application.removeSessionKey, stdListRemove_eq_filter]
  refine ⟨hf, ?_, ?_, ?_, ?_⟩
  · rw [hf]; simp
  · rw [hf]; exact List.filter_sublist _
  · rw [hf, List.filter_eq_self]
    constructor
    · intro h hk
      simpa using h k hk
    · intro h x hx
      have : x ≠ k := fun e => h (e ▸ hx)
      simpa using this
  · simp [Application.removeSessionKey, stdListRemove_eq_filter]

/-- C5 as stated fails: the application that registered a command, a menu and
a menu command has one of each, and its copy has none; the copy's command
mapping, menu mapping and menu items all differ from the source's. -/
theorem copy_drops_registrations :
    appWithRegistrations.getCommandsCount = 1 ∧
      (Application.copy appWithRegistrations).getCommandsCount = 0 ∧
      (Application.copy appWithRegistrations).mCommandMapping ≠
        appWithRegistrations.mCommandMapping ∧
      (Application.copy appWithRegistrations).mMenuMapping ≠ appWithRegistrations.mMenuMapping ∧
      (Application.copy appWithRegistrations).mMenus ≠ appWithRegistrations.mMenus := by
  decide

/-- C5, amended: for every application src, the copy constructed from src has
name, appId, protocolVersion, mediaScreenName, isMediaApplication and
vrSynonyms equal to those of src, and session keys exactly [src.appId] whatever
the session keys of src are; its command mapping, menu mapping and menu items
are default-constructed, holding no entry, so each of them equals that of src
exactly when src holds a default-constructed one. -/
theorem copy_fields (src : Application) :
    (Application.copy src).getName = src.getName ∧
      (Application.copy src).getAppID = src.getAppID ∧
      (Application.copy src).getProtocolVersion = src.getProtocolVersion ∧
      (Application.copy src).getNgnMediaScreenAppName = src.getNgnMediaScreenAppName ∧
      (Application.copy src).getIsMediaApplication = src.getIsMediaApplication ∧
      (Application.copy src).getVrSynonyms = src.getVrSynonyms ∧
      (Application.copy src).mSessionKeys = [src.getAppID] ∧
      (Application.copy src).mCommandMapping = CommandMapping.empty ∧
      (Application.copy src).mMenuMapping = MenuMapping.empty ∧
      (Application.copy src).mMenus = MenuItems.empty ∧
      (Application.copy src).getCommandsCount = 0 ∧
      (Application.copy src).getMenuCommandsCount = 0 ∧
      (Application.copy src).getMenusCount = 0 ∧
      ((Application.copy src).mCommandMapping = src.mCommandMapping ↔
        src.mCommandMapping = CommandMapping.empty) ∧
      ((Application.copy src).mMenuMapping = src.mMenuMapping ↔
        src.mMenuMapping = MenuMapping.empty) ∧
      ((Application.copy src).mMenus = src.mMenus ↔ src.mMenus = MenuItems.empty) := by
  obtain ⟨hc, hm, hi⟩ := copy_containers_default src
  refine ⟨?_, ?_, ?_, ?_, ?_, ?_, ?_, hc, hm, hi, ?_, ?_, ?_, ?_, ?_, ?_⟩
  any_goals
    simp [Application.copy, Application.addSessionKey, stdListPushBack, Application.getName,
      Application.getAppID, Application.getProtocolVersion,
      Application.getNgnMediaScreenAppName, Application.getIsMediaApplication,
      Application.getVrSynonyms]
  · simp [Application.getCommandsCount, hc, CommandMapping.size, CommandMapping.empty]
  · simp [Application.getMenuCommandsCount, hm, MenuMapping.size, MenuMapping.empty]
  · simp [Application.getMenusCount, hi, MenuItems.size, MenuItems.empty]
  · exact eq_comm
  · exact eq_comm
  · exact eq_comm

/-- C7: for every name, appId and protocol version v, the application
constructed from them has session keys [appId], exactly one element,
getAppID() = appId, getName() = name, getProtocolVersion() = v, an empty media
screen name and the media flag off. -/
theorem construct_fields (name : String) (appId : Int) (v : Nat) :
    (Application.construct name appId v).1.mSessionKeys = [appId] ∧
      (Application.construct name appId v).1.mSessionKeys.length = 1 ∧
      (Application.construct name appId v).1.getAppID = appId ∧
      (Application.construct name appId v).1.getName = name ∧
      (Application.construct name appId v).1.getProtocolVersion = v ∧
      (Application.construct name appId v).1.getNgnMediaScreenAppName = "" ∧
      (Application.construct name appId v).1.getIsMediaApplication = false := by
  simp [Application.construct, Application.addSessionKey, stdListPushBack, Application.getName,
    Application.getAppID, Application.getProtocolVersion, Application.getNgnMediaScreenAppName,
    Application.getIsMediaApplication]

/-- C8: for any applications a and b, a == b holds if and only if
a.getAppID() = b.getAppID(); replacing a and b by applications with the same
ids, whatever their other members, does not change the result; and == is
reflexive, symmetric and transitive. -/
theorem operatorEq_iff_same_appId (a b c a2 b2 : Application)
    (ha : a2.getAppID = a.getAppID) (hb : b2.getAppID = b.getAppID) :
    (a.operatorEq b = true ↔ a.getAppID = b.getAppID) ∧
      a2.operatorEq b2 = a.operatorEq b ∧
      a.operatorEq a = true ∧
      a.operatorEq b = b.operatorEq a ∧
      (a.operatorEq b = true → b.operatorEq c = true → a.operatorEq c = true) := by
  refine ⟨by simp [Application.operatorEq], by simp [Application.operatorEq, ha, hb],
    by simp [Application.operatorEq], ?_, ?_⟩
  · simp only [Application.operatorEq]
    exact Bool.eq_iff_iff.mpr ⟨fun h => beq_iff_eq.mpr (beq_iff_eq.mp h).symm,
      fun h => beq_iff_eq.mpr (beq_iff_eq.mp h).symm⟩
  · simp only [Application.operatorEq, beq_iff_eq]
    exact fun h1 h2 => h1.trans h2

/-- Witness of C8: the application with registrations and a differently named
application of the same id 7 compare equal, in both orders. -/
theorem operatorEq_iff_same_appId_witness :
    (Application.construct "radio" 7 1).1.getAppID = appWithRegistrations.getAppID ∧
      ((Application.construct "radio" 7 1).1.operatorEq appWithRegistrations =
        appWithRegistrations.operatorEq appWithRegistrations) ∧
      appWithRegistrations.operatorEq (Application.construct "radio" 7 1).1 = true :=
  ⟨by decide,
    (operatorEq_iff_same_appId appWithRegistrations appWithRegistrations appWithRegistrations
      (Application.construct "radio" 7 1).1 appWithRegistrations (by decide) rfl).2.1,
    by decide⟩

end NsAppManager
